import Mathlib

/-!
Verification of the Intelligent Issue Insight Engine (rule engine,
priority fusion, clustering selection, trend anomaly detection).

Shallow embedding conventions:
- Python floats are modelled as rationals (all constants are decimal literals).
- Python dict lookups that may raise KeyError, and divisions that may raise
  ZeroDivisionError, are modelled with Option: a raised exception is `none`.
- A Python timestamp is consumed only through its month, hour and weekday,
  so temporal functions take those three numbers directly.
- `kw in text` (substring test) is modelled by an explicit list scan.
-/

-- Batteries seals rational arithmetic; re-open it so that concrete runs of
-- the embedded program reduce by decide.
attribute [local semireducible] Rat.mul Rat.inv Rat.add Rat.sub

namespace Config

def URGENCY_KEYWORDS_critical : List String :=
  ["urgent", "emergency", "critical", "asap", "immediately",
   "right now", "can\x27t access", "completely down", "not working"]

def URGENCY_KEYWORDS_time_sensitive : List String :=
  ["exam", "deadline", "today", "assignment due",
   "test", "quiz", "presentation", "meeting"]

def URGENCY_KEYWORDS_impact : List String :=
  ["all students", "entire", "everyone", "multiple",
   "department", "campus-wide", "building"]

def EXAM_SEASON_MONTHS : List ℕ := [4, 5, 11, 12]

def PEAK_HOURS_morning : ℕ × ℕ := (8, 12)

def PEAK_HOURS_afternoon : ℕ × ℕ := (12, 17)

def PEAK_HOURS_evening : ℕ × ℕ := (17, 21)

-- config.py PRIORITY_WEIGHTS (0.35, 0.30, 0.20, 0.15)
def PRIORITY_WEIGHTS : List (String × ℚ) :=
  [("urgency_score", 7/20), ("impact_score", 3/10),
   ("recurrence_score", 1/5), ("time_sensitivity", 3/20)]

end Config

-- Substring containment, modelling Python `pat in s` on lowered text.
def subChars (pat : List Char) : List Char → Bool
  | [] => pat.isEmpty
  | c :: t => pat.isPrefixOf (c :: t) || subChars pat t

def strContains (s pat : String) : Bool := subChars pat.toList s.toList

-- Python str.lower(), character by character.
def lower (s : String) : String := String.mk (s.data.map Char.toLower)

-- Python str.split() with no argument: split on whitespace runs, dropping
-- empty pieces.
def splitWordsAux : List Char → List Char → List String
  | [], acc => if acc.isEmpty then [] else [String.mk acc.reverse]
  | c :: rest, acc =>
    if c.isWhitespace then
      if acc.isEmpty then splitWordsAux rest []
      else String.mk acc.reverse :: splitWordsAux rest []
    else splitWordsAux rest (c :: acc)

def splitWords (s : String) : List String := splitWordsAux s.data []

namespace RuleEngine

structure UrgencySignals where
  urgency_score : ℚ
  urgency_level : String
  matched_critical : List String
  matched_time_sensitive : List String
  matched_impact : List String
  explanation : String

-- KeywordRuleEngine.detect_urgency_signals
def detect_urgency_signals (text : String) : UrgencySignals :=
  let text_lower := lower text
  let matched_critical :=
    Config.URGENCY_KEYWORDS_critical.filter (fun kw => strContains text_lower kw)
  let matched_time_sensitive :=
    Config.URGENCY_KEYWORDS_time_sensitive.filter (fun kw => strContains text_lower kw)
  let matched_impact :=
    Config.URGENCY_KEYWORDS_impact.filter (fun kw => strContains text_lower kw)
  let critical_score : ℚ := min ((matched_critical.length : ℚ) * (2/5)) (3/5)
  let time_score : ℚ := min ((matched_time_sensitive.length : ℚ) * (3/10)) (3/10)
  let impact_score : ℚ := min ((matched_impact.length : ℚ) * (1/5)) (1/5)
  let urgency_score := critical_score + time_score + impact_score
  let urgency_level :=
    if urgency_score ≥ 3/5 then "HIGH"
    else if urgency_score ≥ 3/10 then "MEDIUM"
    else "LOW"
  let explanation_parts : List String :=
    (if matched_critical.isEmpty then [] else
      ["Critical keywords: " ++ String.intercalate ", " (matched_critical.take 3)]) ++
    (if matched_time_sensitive.isEmpty then [] else
      ["Time-sensitive: " ++ String.intercalate ", " (matched_time_sensitive.take 3)]) ++
    (if matched_impact.isEmpty then [] else
      ["High impact: " ++ String.intercalate ", " (matched_impact.take 3)])
  let explanation :=
    if explanation_parts.isEmpty then "No urgency signals detected"
    else String.intercalate "; " explanation_parts
  ⟨urgency_score, urgency_level, matched_critical, matched_time_sensitive,
   matched_impact, explanation⟩

structure TemporalContext where
  time_score : ℚ
  is_exam_period : Bool
  time_of_day : String
  is_weekend : Bool
  is_peak_hour : Bool
  explanation : String

-- TimeBasedRuleEngine.analyze_temporal_context, on the parsed timestamp's
-- month, hour and weekday (weekday 0 = Monday, as in Python).
def analyze_temporal_context (month hour weekday : ℕ) : TemporalContext :=
  let is_exam_period := Config.EXAM_SEASON_MONTHS.contains month
  let tod_pm : String × ℚ :=
    if Config.PEAK_HOURS_morning.1 ≤ hour ∧ hour < Config.PEAK_HOURS_morning.2 then
      ("morning", 4/5)
    else if Config.PEAK_HOURS_afternoon.1 ≤ hour ∧ hour < Config.PEAK_HOURS_afternoon.2 then
      ("afternoon", 1)
    else if Config.PEAK_HOURS_evening.1 ≤ hour ∧ hour < Config.PEAK_HOURS_evening.2 then
      ("evening", 9/10)
    else
      ("night", 7/10)
  let time_of_day := tod_pm.1
  let peak_multiplier := tod_pm.2
  let is_weekend := decide (weekday ≥ 5)
  let weekend_multiplier : ℚ := if is_weekend then 17/20 else 1
  let time_score : ℚ :=
    min ((1/2 + (if is_exam_period then (3/10 : ℚ) else 0)) * peak_multiplier *
      weekend_multiplier) 1
  let explanation_parts : List String :=
    (if is_exam_period then ["Exam period - higher priority"] else []) ++
    ["Reported during " ++ time_of_day] ++
    (if is_weekend then ["Weekend - slightly lower priority"] else [])
  ⟨time_score, is_exam_period, time_of_day, is_weekend,
   decide (peak_multiplier ≥ 9/10), String.intercalate "; " explanation_parts⟩

structure ImpactAssessment where
  impact_score : ℚ
  impact_level : String
  estimated_users_affected : String
  explanation : String

-- ImpactAssessmentEngine category_impact dict, .get(category, 0.5),
-- rendered as the dict's key-equality lookup chain
def category_impact_get (category : Option String) : ℚ :=
  match category with
  | none => 1/2
  | some c =>
    if c = "Network" then 4/5
    else if c = "Facilities" then 3/5
    else if c = "IT Support" then 2/5
    else if c = "Academic" then 1/2
    else if c = "Admin" then 3/10
    else 1/2

-- ImpactAssessmentEngine.assess_impact
def assess_impact (text : String) (category : Option String) : ImpactAssessment :=
  let text_lower := lower text
  let high := ["all", "entire", "everyone", "whole", "campus", "building",
    "department", "multiple", "many", "widespread", "campus-wide", "system-wide"]
  let medium := ["several", "few", "some", "group", "class", "floor", "room", "lab"]
  let low := ["my", "i", "me", "personal", "own"]
  let high_count := high.countP (fun kw => strContains text_lower kw)
  let medium_count := medium.countP (fun kw => strContains text_lower kw)
  let low_count := low.countP (fun kw => strContains text_lower kw)
  let base_impact := category_impact_get category
  if high_count > 0 then
    ⟨min (base_impact + 2/5) 1, "HIGH", "50-500+",
     "High-impact keywords detected: affects multiple users"⟩
  else if medium_count > 0 then
    ⟨base_impact, "MEDIUM", "10-50", "Medium-impact scope: affects a group"⟩
  else if low_count > 0 then
    ⟨max (base_impact - 3/10) (1/10), "LOW", "1-5",
     "Individual issue: single user affected"⟩
  else
    ⟨base_impact, "MEDIUM", "Unknown",
     "Estimated based on category (" ++ category.getD "None" ++ ")"⟩

structure SimilarIssue where
  text : String
  similarity : ℚ

structure RecurringAnalysis where
  is_recurring : Bool
  recurrence_count : ℕ
  similar_issues : List SimilarIssue
  explanation : String
  escalation_recommended : Bool

-- set(text.lower().split())
def wordSet (t : String) : Finset String :=
  (splitWords (lower t)).toFinset

-- Jaccard similarity; `none` models Python's ZeroDivisionError when both
-- word sets are empty.
def jaccard_similarity (a b : String) : Option ℚ :=
  let u := wordSet a ∪ wordSet b
  if u.card = 0 then none
  else some (((wordSet a ∩ wordSet b).card : ℚ) / (u.card : ℚ))

-- The for-loop over historical_issues: scores every historical issue in
-- order; a failing similarity computation aborts the whole call.
def score_history (current_text : String) : List String → Option (List SimilarIssue)
  | [] => some []
  | hist :: rest => do
    let s ← jaccard_similarity current_text hist
    let tail ← score_history current_text rest
    some (SimilarIssue.mk hist s :: tail)

-- RecurringIssueDetector.detect_recurring_pattern; `none` models an
-- uncaught exception escaping the loop body.
def detect_recurring_pattern (current_text : String) (historical_issues : List String)
    (similarity_threshold : ℚ) : Option RecurringAnalysis :=
  if historical_issues.isEmpty then
    some ⟨false, 0, [], "No historical data available", false⟩
  else do
    let scored ← score_history current_text historical_issues
    let similar_issues := scored.filter (fun si => si.similarity ≥ similarity_threshold)
    let recurrence_count := similar_issues.length
    let is_recurring := decide (recurrence_count ≥ 3)
    let explanation :=
      if is_recurring then
        "⚠️ RECURRING ISSUE: " ++ toString recurrence_count ++ " similar reports found"
      else if recurrence_count > 0 then
        "Similar to " ++ toString recurrence_count ++ " past issue(s)"
      else "First occurrence of this issue"
    some ⟨is_recurring, recurrence_count, similar_issues.take 5, explanation,
      is_recurring⟩

structure AnalyzeResult where
  rule_priority : String
  priority_label : String
  combined_score : ℚ
  urgency_analysis : UrgencySignals
  time_analysis : TemporalContext
  impact_analysis : ImpactAssessment
  recurring_analysis : RecurringAnalysis
  explanation : String

-- The inline defaults in CompleteRuleEngine.analyze_issue
def RULE_DEFAULT_WEIGHTS : List (String × ℚ) :=
  [("urgency_score", 2/5), ("time_sensitivity", 3/10),
   ("impact_score", 3/10), ("recurrence_score", 1/10)]

-- Python dict-merge lookup: a key of PRIORITY_WEIGHTS overrides the inline
-- default with the same key. All four keys used below exist in both dicts,
-- so the getD 0 fallback is never reached.
def merged_weight (key : String) : ℚ :=
  ((Config.PRIORITY_WEIGHTS.lookup key).or (RULE_DEFAULT_WEIGHTS.lookup key)).getD 0

-- CompleteRuleEngine.analyze_issue
def analyze_issue (text : String) (month hour weekday : ℕ)
    (category : Option String) (historical_issues : List String) :
    Option AnalyzeResult := do
  let urgency := detect_urgency_signals text
  let time_ctx := analyze_temporal_context month hour weekday
  let impact := assess_impact text category
  let recurring ← detect_recurring_pattern text historical_issues (3/5)
  let combined_score : ℚ :=
    min (urgency.urgency_score * merged_weight "urgency_score" +
         time_ctx.time_score * merged_weight "time_sensitivity" +
         impact.impact_score * merged_weight "impact_score" +
         (if recurring.is_recurring then merged_weight "recurrence_score" else 0)) 1
  let prio_label : String × String :=
    if combined_score ≥ 3/4 ∨ recurring.is_recurring then ("P1", "High")
    else if combined_score ≥ 9/20 then ("P2", "Medium")
    else ("P3", "Low")
  let explanation :=
    "Rule-based priority: " ++ prio_label.1 ++ ", combined score: " ++
      toString combined_score
  some ⟨prio_label.1, prio_label.2, combined_score, urgency, time_ctx, impact,
    recurring, explanation⟩

end RuleEngine

-- Spec-stated default combination formula for comparison with the code:
-- combined = urgency*0.4 + time*0.3 + impact*0.3 + (0.1 if recurring), clamped.
def spec_combined_score (urgency time_score impact : ℚ) (is_recurring : Bool) : ℚ :=
  min (urgency * (2/5) + time_score * (3/10) + impact * (3/10) +
       (if is_recurring then (1/10 : ℚ) else 0)) 1

namespace PriorityEngine

-- The fields of ml_result read by calculate_final_priority; `none` models
-- an absent dict key.
structure MlResult where
  priority : Option String
  priority_confidence : Option ℚ
  category : Option String

-- The fields of rule_result read by calculate_final_priority, flattened
-- along the nested .get chains; `none` models an absent key.
structure RuleResultInput where
  rule_priority : Option String
  combined_score : Option ℚ
  recurring_is_recurring : Option Bool
  impact_level : Option String
  is_exam_period : Option Bool
  urgency_level : Option String

structure FusionResult where
  final_priority : String
  ml_priority : String
  rule_priority : String
  decision_source : String
  escalation_triggers : List String
  department_adjustment : String
  confidence_score : ℚ

-- priority_to_num dict lookup; `none` models KeyError.
def priority_to_num (p : String) : Option ℕ :=
  if p = "P1" then some 3
  else if p = "P2" then some 2
  else if p = "P3" then some 1
  else none

-- num_to_priority dict lookup; `none` models KeyError.
def num_to_priority (n : ℕ) : Option String :=
  if n = 3 then some "P1"
  else if n = 2 then some "P2"
  else if n = 1 then some "P3"
  else none

-- Step 1 of calculate_final_priority: pick the source with higher
-- confidence, else the conservative max.
def fusion_base (ml_confidence rule_score : ℚ) (ml_num rule_num : ℕ) :
    ℕ × String :=
  if ml_confidence ≥ 3/4 then (ml_num, "ML (High Confidence)")
  else if rule_score ≥ 7/10 then (rule_num, "Rules (High Score)")
  else (max ml_num rule_num, "Hybrid (Conservative)")

-- Trigger 1: recurring issue, at least P2.
def escalation_step₁ (rule_result : RuleResultInput) (base : ℕ) :
    ℕ × List String :=
  if rule_result.recurring_is_recurring.getD false then
    (max base 2, ["Recurring issue pattern detected"])
  else (base, [])

-- Trigger 2: high impact, at least P2.
def escalation_step₂ (rule_result : RuleResultInput) (s : ℕ × List String) :
    ℕ × List String :=
  if rule_result.impact_level = some "HIGH" then
    (max s.1 2, s.2 ++ ["High impact - multiple users affected"])
  else s

-- Trigger 3: exam period plus urgent keywords, force P1.
def escalation_step₃ (rule_result : RuleResultInput) (s : ℕ × List String) :
    ℕ × List String :=
  if rule_result.is_exam_period.getD false ∧ rule_result.urgency_level = some "HIGH" then
    (3, s.2 ++ ["Exam period + urgent keywords"])
  else s

-- The three auto-escalation triggers applied in order.
def escalation_chain (rule_result : RuleResultInput) (base : ℕ) :
    ℕ × List String :=
  escalation_step₃ rule_result (escalation_step₂ rule_result
    (escalation_step₁ rule_result base))

-- The department-load warning string (it never changes the priority).
def department_adjustment_calc (department_load : Option (List (String × ℚ)))
    (category final_priority : String) : String :=
  match department_load with
  | none => ""
  | some load =>
    if load.isEmpty then ""
    else
      if (load.lookup category).getD 0 > 90 ∧ final_priority = "P3" then
        "⚠️ " ++ category ++ " dept at " ++ toString ((load.lookup category).getD 0) ++
          "% capacity - consider reassignment"
      else ""

-- PriorityIntelligenceEngine.calculate_final_priority
def calculate_final_priority (ml_result : MlResult) (rule_result : RuleResultInput)
    (department_load : Option (List (String × ℚ))) : Option FusionResult :=
  (priority_to_num (ml_result.priority.getD "P3")).bind (fun ml_num =>
  (priority_to_num (rule_result.rule_priority.getD "P3")).bind (fun rule_num =>
  (num_to_priority (escalation_chain rule_result
      (fusion_base (ml_result.priority_confidence.getD (1/2))
        (rule_result.combined_score.getD (1/2)) ml_num rule_num).1).1).bind
    (fun final_priority =>
  some ⟨final_priority,
    ml_result.priority.getD "P3",
    rule_result.rule_priority.getD "P3",
    (fusion_base (ml_result.priority_confidence.getD (1/2))
      (rule_result.combined_score.getD (1/2)) ml_num rule_num).2,
    (escalation_chain rule_result
      (fusion_base (ml_result.priority_confidence.getD (1/2))
        (rule_result.combined_score.getD (1/2)) ml_num rule_num).1).2,
    department_adjustment_calc department_load (ml_result.category.getD "Unknown")
      final_priority,
    max (ml_result.priority_confidence.getD (1/2))
      (rule_result.combined_score.getD (1/2))⟩)))

end PriorityEngine

namespace Clustering

-- np.argsort(similarities)[::-1]: candidate indices in descending order of
-- similarity (tie order is unspecified in the source as well).
def argsort_desc (sims : List ℚ) : List ℕ :=
  List.insertionSort (fun i j => sims.getD i 0 ≥ sims.getD j 0)
    (List.range sims.length)

-- The selection loop of find_similar_issues over the first top_n indices:
-- `continue` on a near-perfect match, `break` below the threshold.
def select_similar (sims : List ℚ) (threshold : ℚ) : List ℕ → List (ℕ × ℚ)
  | [] => []
  | idx :: rest =>
    let s := sims.getD idx 0
    if s ≥ 99/100 then select_similar sims threshold rest
    else if s < threshold then []
    else (idx, s) :: select_similar sims threshold rest

-- IssueClustering.find_similar_issues, abstracting the TF-IDF cosine
-- similarity row as the input list `sims` (one score per candidate issue);
-- the result pairs each returned candidate index with its similarity score.
def find_similar_issues (sims : List ℚ) (threshold : ℚ) (top_n : ℕ) :
    List (ℕ × ℚ) :=
  if sims.isEmpty then []
  else select_similar sims threshold ((argsort_desc sims).take top_n)

end Clustering

namespace TrendAnalysis

structure Anomaly where
  date : String
  count : ℕ
  avg : ℚ
  severity : String

-- daily_counts built from the parsed dates of the batch (issues whose
-- timestamp fails to parse are skipped before this point).
def daily_counts (dates : List String) : List (String × ℕ) :=
  dates.dedup.map (fun d => (d, dates.count d))

def avg_daily (dates : List String) : ℚ :=
  (((daily_counts dates).map Prod.snd).sum : ℚ) / ((daily_counts dates).length : ℚ)

-- TrendAnalyzer.detect_anomalies
def detect_anomalies (dates : List String) : List Anomaly :=
  let counts := daily_counts dates
  if counts.isEmpty then []
  else
    let avg := avg_daily dates
    let anomalies := (counts.filter (fun dc => (dc.2 : ℚ) > avg * 2)).map
      (fun dc => Anomaly.mk dc.1 dc.2 avg
        (if (dc.2 : ℚ) > avg * 3 then "HIGH" else "MEDIUM"))
    List.insertionSort (fun a b => a.count ≥ b.count) anomalies

end TrendAnalysis

/-! ## Shared helper lemmas -/

lemma category_impact_get_bounds (category : Option String) :
    3/10 ≤ RuleEngine.category_impact_get category ∧
    RuleEngine.category_impact_get category ≤ 4/5 := by
  unfold RuleEngine.category_impact_get
  cases category with
  | none => norm_num
  | some c => dsimp only; split_ifs <;> norm_num

lemma time_score_le (month hour weekday : ℕ) :
    (RuleEngine.analyze_temporal_context month hour weekday).time_score ≤ 4/5 := by
  unfold RuleEngine.analyze_temporal_context
  dsimp only
  refine le_trans (min_le_left _ _) ?_
  split_ifs <;> norm_num

lemma time_score_nonneg (month hour weekday : ℕ) :
    0 ≤ (RuleEngine.analyze_temporal_context month hour weekday).time_score := by
  unfold RuleEngine.analyze_temporal_context
  dsimp only
  refine le_min ?_ (by norm_num)
  split_ifs <;> norm_num

lemma urgency_score_bounds (text : String) :
    0 ≤ (RuleEngine.detect_urgency_signals text).urgency_score ∧
    (RuleEngine.detect_urgency_signals text).urgency_score ≤ 11/10 := by
  unfold RuleEngine.detect_urgency_signals
  dsimp only
  constructor
  · refine add_nonneg (add_nonneg ?_ ?_) ?_ <;>
      exact le_min (by positivity) (by norm_num)
  · exact le_trans
      (add_le_add (add_le_add (min_le_right _ _) (min_le_right _ _))
        (min_le_right _ _)) (by norm_num)

lemma impact_score_bounds (text : String) (category : Option String) :
    0 ≤ (RuleEngine.assess_impact text category).impact_score ∧
    (RuleEngine.assess_impact text category).impact_score ≤ 1 := by
  obtain ⟨hb1, hb2⟩ := category_impact_get_bounds category
  unfold RuleEngine.assess_impact
  dsimp only
  split_ifs
  · exact ⟨le_min (by linarith) (by norm_num), min_le_right _ _⟩
  · exact ⟨by linarith, by linarith⟩
  · exact ⟨le_trans (by norm_num) (le_max_right _ _),
      max_le (by linarith) (by norm_num)⟩
  · exact ⟨by linarith, by linarith⟩

/-! ## Claim theorems -/

/-- C1 counterexample: on the issue text "urgent emergency exam entire"
(January, noon, Monday, no category, no history), the code computes
combined_score = 0.73 using the configured PRIORITY_WEIGHTS, while the
spec-stated default weights 0.4/0.3/0.3/0.1 would give 0.86, so the claimed
weights are not the ones actually applied. -/
theorem C1_counterexample :
    (RuleEngine.analyze_issue "urgent emergency exam entire" 1 12 0 none []).map
      (fun r => r.combined_score) = some (73/100) ∧
    spec_combined_score
      (RuleEngine.detect_urgency_signals "urgent emergency exam entire").urgency_score
      (RuleEngine.analyze_temporal_context 1 12 0).time_score
      (RuleEngine.assess_impact "urgent emergency exam entire" none).impact_score
      false = 43/50 ∧
    (73/100 : ℚ) ≠ 43/50 := by
  exact ⟨by decide, by decide, by norm_num⟩

/-- C1 (amended): RuleEngine.analyze computes combined_score as
urgency_score*0.35 + time_score*0.15 + impact_score*0.30 +
(0.20 if recurrence is flagged else 0), clamped to 1.0 — the configured
PRIORITY_WEIGHTS override the inline 0.4/0.3/0.3/0.1 defaults. -/
theorem C1_amended_weights (text : String) (month hour weekday : ℕ)
    (category : Option String) (historical_issues : List String) :
    (RuleEngine.analyze_issue text month hour weekday category historical_issues).map
      (fun r => r.combined_score) =
    (RuleEngine.detect_recurring_pattern text historical_issues (3/5)).map
      (fun rec =>
        min ((RuleEngine.detect_urgency_signals text).urgency_score * (7/20) +
             (RuleEngine.analyze_temporal_context month hour weekday).time_score * (3/20) +
             (RuleEngine.assess_impact text category).impact_score * (3/10) +
             (if rec.is_recurring then (1/5 : ℚ) else 0)) 1) := by
  unfold RuleEngine.analyze_issue
  cases RuleEngine.detect_recurring_pattern text historical_issues (3/5) <;> rfl

/-- C3 counterexample: on "urgent emergency exam entire" the keyword scorer
returns urgency_score = 1.1 > 1.0, so the claimed clamp of the sum to 1.0
does not exist in the code. -/
theorem C3_counterexample :
    (RuleEngine.detect_urgency_signals "urgent emergency exam entire").urgency_score
      = 11/10 ∧
    ¬((RuleEngine.detect_urgency_signals
        "urgent emergency exam entire").urgency_score ≤ 1) := by
  exact ⟨by decide, by decide⟩

/-- C3 (amended): the three urgency components are individually clamped
(to 0.6, 0.3, 0.2) so urgency_score lies in [0, 1.1], but the sum itself is
not clamped to 1.0; the temporal and impact scores do lie in [0, 1]. -/
theorem C3_amended_score_ranges (text : String) (category : Option String)
    (month hour weekday : ℕ) :
    (0 ≤ (RuleEngine.detect_urgency_signals text).urgency_score ∧
     (RuleEngine.detect_urgency_signals text).urgency_score ≤ 11/10) ∧
    (0 ≤ (RuleEngine.analyze_temporal_context month hour weekday).time_score ∧
     (RuleEngine.analyze_temporal_context month hour weekday).time_score ≤ 1) ∧
    (0 ≤ (RuleEngine.assess_impact text category).impact_score ∧
     (RuleEngine.assess_impact text category).impact_score ≤ 1) :=
  ⟨urgency_score_bounds text,
   ⟨time_score_nonneg month hour weekday,
    le_trans (time_score_le month hour weekday) (by norm_num)⟩,
   impact_score_bounds text category⟩

/-- C10: for every timestamp (month, hour, weekday), the temporal scorer's
time_score is at most 0.8, hence strictly below 1.0, so the final
min(..., 1.0) clamp never binds. -/
theorem C10_time_score_bounded (month hour weekday : ℕ) :
    (RuleEngine.analyze_temporal_context month hour weekday).time_score ≤ 4/5 ∧
    (RuleEngine.analyze_temporal_context month hour weekday).time_score < 1 :=
  ⟨time_score_le month hour weekday,
   lt_of_le_of_lt (time_score_le month hour weekday) (by norm_num)⟩

/-- C4: rule_priority is P1 iff combined_score ≥ 0.75 or recurrence is
flagged; otherwise P2 iff combined_score ≥ 0.45; otherwise P3. -/
theorem C4_priority_thresholds (text : String) (month hour weekday : ℕ)
    (category : Option String) (historical_issues : List String)
    (r : RuleEngine.AnalyzeResult)
    (h : RuleEngine.analyze_issue text month hour weekday category historical_issues
      = some r) :
    (r.rule_priority = "P1" ↔
      (r.combined_score ≥ 3/4 ∨ r.recurring_analysis.is_recurring = true)) ∧
    (¬(r.combined_score ≥ 3/4 ∨ r.recurring_analysis.is_recurring = true) →
      ((r.rule_priority = "P2" ↔ r.combined_score ≥ 9/20) ∧
       (r.combined_score < 9/20 → r.rule_priority = "P3"))) := by
  unfold RuleEngine.analyze_issue at h
  cases hrec : RuleEngine.detect_recurring_pattern text historical_issues (3/5) with
  | none => rw [hrec] at h; simp at h
  | some rec =>
    rw [hrec] at h
    simp only [Option.some_bind] at h
    injection h with h
    subst h
    dsimp only
    by_cases hP :
      ((RuleEngine.detect_urgency_signals text).urgency_score *
            RuleEngine.merged_weight "urgency_score" +
          (RuleEngine.analyze_temporal_context month hour weekday).time_score *
            RuleEngine.merged_weight "time_sensitivity" +
          (RuleEngine.assess_impact text category).impact_score *
            RuleEngine.merged_weight "impact_score" +
          (if rec.is_recurring = true then RuleEngine.merged_weight "recurrence_score"
           else 0)) ⊓ 1 ≥ 3/4 ∨ rec.is_recurring = true
    · rw [if_pos hP]
      exact ⟨iff_of_true rfl hP, fun hn => absurd hP hn⟩
    · rw [if_neg hP]
      by_cases hQ :
        ((RuleEngine.detect_urgency_signals text).urgency_score *
              RuleEngine.merged_weight "urgency_score" +
            (RuleEngine.analyze_temporal_context month hour weekday).time_score *
              RuleEngine.merged_weight "time_sensitivity" +
            (RuleEngine.assess_impact text category).impact_score *
              RuleEngine.merged_weight "impact_score" +
            (if rec.is_recurring = true then RuleEngine.merged_weight "recurrence_score"
             else 0)) ⊓ 1 ≥ 9/20
      · rw [if_pos hQ]
        exact ⟨iff_of_false (by decide) hP,
          fun _ => ⟨iff_of_true rfl hQ, fun hlt => absurd hQ (not_le.mpr hlt)⟩⟩
      · rw [if_neg hQ]
        exact ⟨iff_of_false (by decide) hP,
          fun _ => ⟨iff_of_false (by decide) hQ, fun _ => rfl⟩⟩

/-- C4 witness: a concrete low-signal issue ("x", January, midnight, Monday,
no category, no history) has combined_score below both thresholds and the
theorem yields rule_priority P3. -/
theorem C4_witness :
    ((RuleEngine.analyze_issue "x" 1 0 0 none []).get (by decide)).rule_priority
      = "P3" := by
  have h := C4_priority_thresholds "x" 1 0 0 none [] _
    (Option.some_get (by decide)).symm
  exact (h.2 (by decide)).2 (by decide)

lemma score_history_isSome (current : String) (l : List String)
    (h : ∀ t ∈ l, (RuleEngine.wordSet current ∪ RuleEngine.wordSet t).card ≠ 0) :
    (RuleEngine.score_history current l).isSome = true := by
  induction l with
  | nil => rfl
  | cons a l ih =>
    have ha := h a (List.mem_cons_self a l)
    have hja : (RuleEngine.jaccard_similarity current a).isSome = true := by
      unfold RuleEngine.jaccard_similarity
      simp [ha]
    obtain ⟨x, hx⟩ := Option.isSome_iff_exists.mp hja
    have hl := ih (fun t ht => h t (List.mem_cons_of_mem a ht))
    obtain ⟨ys, hys⟩ := Option.isSome_iff_exists.mp hl
    unfold RuleEngine.score_history
    simp [hx, hys]

/-- C6 counterexample: on an empty current text and a history containing an
empty string the word-set union is empty, the Jaccard division raises
(ZeroDivisionError), and detect_recurring_pattern does not return a result. -/
theorem C6_counterexample :
    RuleEngine.detect_recurring_pattern "" [""] (3/5) = none := rfl

/-- C6 (amended): detect_recurring_pattern returns a complete result for
every input in which the current text and each historical text are not both
whitespace-only (so each word-set union is nonempty); an empty history
yields the safe no-op result. -/
theorem C6_amended_total (current : String) (hist : List String) (threshold : ℚ)
    (h : ∀ t ∈ hist, (RuleEngine.wordSet current ∪ RuleEngine.wordSet t).card ≠ 0) :
    (RuleEngine.detect_recurring_pattern current hist threshold).isSome = true ∧
    RuleEngine.detect_recurring_pattern current [] threshold =
      some ⟨false, 0, [], "No historical data available", false⟩ := by
  constructor
  · unfold RuleEngine.detect_recurring_pattern
    by_cases hE : hist.isEmpty
    · rw [if_pos hE]; rfl
    · rw [if_neg hE]
      obtain ⟨ys, hys⟩ := Option.isSome_iff_exists.mp (score_history_isSome current hist h)
      rw [hys]
      rfl
  · rfl

/-- C6 witness: on a concrete non-degenerate input the detector returns a
result. -/
theorem C6_witness :
    (RuleEngine.detect_recurring_pattern "wifi down" ["wifi is down"] (3/5)).isSome
      = true :=
  (C6_amended_total "wifi down" ["wifi is down"] (3/5) (by decide)).1

lemma priority_to_num_range (p : String) (n : ℕ)
    (h : PriorityEngine.priority_to_num p = some n) : 1 ≤ n ∧ n ≤ 3 := by
  unfold PriorityEngine.priority_to_num at h
  split_ifs at h <;> injection h with h <;> omega

lemma fusion_base_le (c s : ℚ) (m r : ℕ) (hm : m ≤ 3) (hr : r ≤ 3) :
    (PriorityEngine.fusion_base c s m r).1 ≤ 3 := by
  unfold PriorityEngine.fusion_base
  split_ifs <;> simp <;> omega

lemma escalation_chain_le (rule : PriorityEngine.RuleResultInput) (b : ℕ)
    (hb : b ≤ 3) : (PriorityEngine.escalation_chain rule b).1 ≤ 3 := by
  unfold PriorityEngine.escalation_chain PriorityEngine.escalation_step₃
    PriorityEngine.escalation_step₂ PriorityEngine.escalation_step₁
  split_ifs <;> simp <;> omega

lemma escalation_chain_triggered_ge (rule : PriorityEngine.RuleResultInput) (b : ℕ)
    (h : (PriorityEngine.escalation_chain rule b).2 ≠ []) :
    2 ≤ (PriorityEngine.escalation_chain rule b).1 := by
  unfold PriorityEngine.escalation_chain PriorityEngine.escalation_step₃
    PriorityEngine.escalation_step₂ PriorityEngine.escalation_step₁ at *
  split_ifs at * <;> simp_all

lemma num_to_priority_of_ge_two (k : ℕ) (h2 : 2 ≤ k) (h3 : k ≤ 3) :
    PriorityEngine.num_to_priority k = some "P1" ∨
    PriorityEngine.num_to_priority k = some "P2" := by
  interval_cases k
  · right; rfl
  · left; rfl

/-- C2 counterexample: ML reports P1 with confidence 0.6 while the rule side
reports P2 with combined score 0.70 and HIGH impact. The rule source wins
(score ≥ 0.70), the high-impact trigger fires, yet the final priority is P2,
strictly below the higher input priority P1. -/
theorem C2_counterexample :
    (PriorityEngine.calculate_final_priority ⟨some "P1", some (3/5), none⟩
      ⟨some "P2", some (7/10), some false, some "HIGH", some false, none⟩ none).map
      (fun r => (r.final_priority, r.ml_priority, r.escalation_triggers)) =
      some ("P2", "P1", ["High impact - multiple users affected"]) ∧
    PriorityEngine.priority_to_num "P2" = some 2 ∧
    PriorityEngine.priority_to_num "P1" = some 3 ∧ (2 : ℕ) < 3 := by
  exact ⟨by decide, by decide, by decide, by decide⟩

/-- C2 (amended): once any escalation trigger fires, the final priority is at
least P2 (triggers only raise the already-selected priority; they do not
restore the higher of the two input priorities when the source-selection step
chose the lower one). -/
theorem C2_amended_escalation_floor (ml : PriorityEngine.MlResult)
    (rule : PriorityEngine.RuleResultInput)
    (dept : Option (List (String × ℚ))) (r : PriorityEngine.FusionResult)
    (h : PriorityEngine.calculate_final_priority ml rule dept = some r)
    (ht : r.escalation_triggers ≠ []) :
    r.final_priority = "P1" ∨ r.final_priority = "P2" := by
  unfold PriorityEngine.calculate_final_priority at h
  cases hml : PriorityEngine.priority_to_num (ml.priority.getD "P3") with
  | none => rw [hml] at h; simp at h
  | some ml_num =>
  cases hrn : PriorityEngine.priority_to_num (rule.rule_priority.getD "P3") with
  | none => rw [hml, hrn] at h; simp at h
  | some rule_num =>
  rw [hml, hrn] at h
  simp only [Option.some_bind] at h
  cases hnp : PriorityEngine.num_to_priority
      (PriorityEngine.escalation_chain rule
        (PriorityEngine.fusion_base (ml.priority_confidence.getD (1/2))
          (rule.combined_score.getD (1/2)) ml_num rule_num).1).1 with
  | none => rw [hnp] at h; simp at h
  | some fp =>
  rw [hnp] at h
  simp only [Option.some_bind] at h
  injection h with h
  subst h
  dsimp only at ht ⊢
  have hK2 := escalation_chain_triggered_ge rule _ ht
  have hK3 := escalation_chain_le rule
    (PriorityEngine.fusion_base (ml.priority_confidence.getD (1/2))
      (rule.combined_score.getD (1/2)) ml_num rule_num).1
    (fusion_base_le (ml.priority_confidence.getD (1/2))
      (rule.combined_score.getD (1/2)) ml_num rule_num
      (priority_to_num_range _ _ hml).2 (priority_to_num_range _ _ hrn).2)
  rcases num_to_priority_of_ge_two _ hK2 hK3 with hc | hc <;>
    rw [hnp] at hc <;> injection hc with hc
  · left; exact hc
  · right; exact hc

/-- C2 witness: the spec's own example — ML P3 at confidence 0.5, rules P3 at
score 0.3, recurrence flagged — yields a final priority of at least P2. -/
theorem C2_witness :
    ((PriorityEngine.calculate_final_priority ⟨some "P3", some (1/2), none⟩
        ⟨some "P3", some (3/10), some true, none, none, none⟩ none).get
        (by decide)).final_priority = "P1" ∨
    ((PriorityEngine.calculate_final_priority ⟨some "P3", some (1/2), none⟩
        ⟨some "P3", some (3/10), some true, none, none, none⟩ none).get
        (by decide)).final_priority = "P2" :=
  C2_amended_escalation_floor _ _ _ _ (Option.some_get (by decide)).symm (by decide)

lemma escalation_chain_exam (rule : PriorityEngine.RuleResultInput) (b : ℕ)
    (hx : rule.is_exam_period = some true)
    (hu : rule.urgency_level = some "HIGH") :
    (PriorityEngine.escalation_chain rule b).1 = 3 := by
  unfold PriorityEngine.escalation_chain PriorityEngine.escalation_step₃
  rw [if_pos ⟨by rw [hx]; rfl, hu⟩]

/-- C5: whenever the rule result reports an exam period together with HIGH
urgency, the fused priority is forced to P1, whatever the ML side (and the
department load) say. -/
theorem C5_exam_high_forces_P1 (ml : PriorityEngine.MlResult)
    (rule : PriorityEngine.RuleResultInput)
    (dept : Option (List (String × ℚ))) (r : PriorityEngine.FusionResult)
    (hx : rule.is_exam_period = some true)
    (hu : rule.urgency_level = some "HIGH")
    (h : PriorityEngine.calculate_final_priority ml rule dept = some r) :
    r.final_priority = "P1" := by
  unfold PriorityEngine.calculate_final_priority at h
  cases hml : PriorityEngine.priority_to_num (ml.priority.getD "P3") with
  | none => rw [hml] at h; simp at h
  | some ml_num =>
  cases hrn : PriorityEngine.priority_to_num (rule.rule_priority.getD "P3") with
  | none => rw [hml, hrn] at h; simp at h
  | some rule_num =>
  rw [hml, hrn] at h
  simp only [Option.some_bind] at h
  rw [escalation_chain_exam rule _ hx hu] at h
  simp only [PriorityEngine.num_to_priority, if_pos rfl, Option.some_bind] at h
  injection h with h
  subst h
  rfl

/-- C5 witness: ML reports P3 with confidence 0.95, but exam period plus HIGH
urgency still force the final priority to P1. -/
theorem C5_witness :
    ((PriorityEngine.calculate_final_priority ⟨some "P3", some (19/20), none⟩
        ⟨some "P3", some (3/10), some false, none, some true, some "HIGH"⟩ none).get
        (by decide)).final_priority = "P1" :=
  C5_exam_high_forces_P1 _ _ _ _ rfl rfl (Option.some_get (by decide)).symm

/-- C9: a priority string other than P1, P2 or P3 in either input makes the
dict lookup fail (KeyError, modelled as none); the P3 default applies exactly
when the key is absent. -/
theorem C9_invalid_priority_keyerror (ml : PriorityEngine.MlResult)
    (rule : PriorityEngine.RuleResultInput)
    (dept : Option (List (String × ℚ))) (s : String)
    (h1 : s ≠ "P1") (h2 : s ≠ "P2") (h3 : s ≠ "P3") :
    (ml.priority = some s →
      PriorityEngine.calculate_final_priority ml rule dept = none) ∧
    (rule.rule_priority = some s →
      PriorityEngine.calculate_final_priority ml rule dept = none) ∧
    PriorityEngine.calculate_final_priority { ml with priority := none } rule dept =
      PriorityEngine.calculate_final_priority { ml with priority := some "P3" } rule dept ∧
    PriorityEngine.calculate_final_priority ml { rule with rule_priority := none } dept =
      PriorityEngine.calculate_final_priority ml { rule with rule_priority := some "P3" } dept := by
  refine ⟨fun hp => ?_, fun hp => ?_, rfl, rfl⟩
  · unfold PriorityEngine.calculate_final_priority
    rw [hp]
    simp [PriorityEngine.priority_to_num, h1, h2, h3]
  · unfold PriorityEngine.calculate_final_priority
    rw [hp]
    cases hml : PriorityEngine.priority_to_num (ml.priority.getD "P3") <;>
      simp [PriorityEngine.priority_to_num, h1, h2, h3]

/-- C9 witness: an ml_result carrying priority "P4" makes the fusion raise
(return none). -/
theorem C9_witness :
    PriorityEngine.calculate_final_priority ⟨some "P4", none, none⟩
      ⟨none, none, none, none, none, none⟩ none = none :=
  (C9_invalid_priority_keyerror ⟨some "P4", none, none⟩
    ⟨none, none, none, none, none, none⟩ none "P4"
    (by decide) (by decide) (by decide)).1 rfl

lemma select_similar_mem (sims : List ℚ) (threshold : ℚ) (l : List ℕ)
    (p : ℕ × ℚ) (hp : p ∈ Clustering.select_similar sims threshold l) :
    p.2 < 99/100 ∧ p.2 = sims.getD p.1 0 := by
  induction l with
  | nil => simp [Clustering.select_similar] at hp
  | cons idx rest ih =>
    unfold Clustering.select_similar at hp
    dsimp only at hp
    split_ifs at hp with h1 h2
    · exact ih hp
    · simp at hp
    · rcases List.mem_cons.mp hp with h | h
      · subst h
        exact ⟨lt_of_not_le (fun hc => h1 hc), rfl⟩
      · exact ih h

lemma select_similar_length (sims : List ℚ) (threshold : ℚ) (l : List ℕ) :
    (Clustering.select_similar sims threshold l).length ≤ l.length := by
  induction l with
  | nil => simp [Clustering.select_similar]
  | cons idx rest ih =>
    unfold Clustering.select_similar
    dsimp only
    split_ifs
    · exact le_trans ih (Nat.le_succ _)
    · simp
    · simp
      exact ih

/-- C7: find_similar never returns a candidate whose similarity to the query
is at least 0.99 (each returned pair carries exactly that candidate's
similarity), and never returns more than top_n results. -/
theorem C7_find_similar_bounds (sims : List ℚ) (threshold : ℚ) (top_n : ℕ) :
    (∀ p ∈ Clustering.find_similar_issues sims threshold top_n,
        p.2 < 99/100 ∧ p.2 = sims.getD p.1 0) ∧
    (Clustering.find_similar_issues sims threshold top_n).length ≤ top_n := by
  unfold Clustering.find_similar_issues
  split_ifs with hE
  · simp
  · constructor
    · intro p hp
      exact select_similar_mem sims threshold _ p hp
    · refine le_trans (select_similar_length sims threshold _) ?_
      exact le_trans (List.length_take_le top_n (Clustering.argsort_desc sims))
        (le_refl top_n)

/-- C7 witness: for similarity row [0.5, 0.995, 0.8] with threshold 0.7 and
top_n = 2, the returned candidate (index 2, similarity 0.8) is below 0.99 and
the result respects the top_n bound. -/
theorem C7_witness :
    ((2 : ℕ), (4/5 : ℚ)).2 < 99/100 ∧
    (Clustering.find_similar_issues [1/2, 995/1000, 8/10] (7/10) 2).length ≤ 2 := by
  have h := C7_find_similar_bounds [1/2, 995/1000, 8/10] (7/10) 2
  exact ⟨(h.1 (2, 4/5) (by decide)).1, h.2⟩

/-- C8: detect_anomalies flags exactly the dates whose daily count strictly
exceeds twice the batch-wide mean daily count, marks severity HIGH exactly
above three times the mean (else MEDIUM), returns them sorted by count
descending, and returns the empty list when no day exceeds twice the mean. -/
theorem C8_detect_anomalies (dates : List String) :
    List.Pairwise (fun a b : TrendAnalysis.Anomaly => b.count ≤ a.count)
      (TrendAnalysis.detect_anomalies dates) ∧
    (∀ a ∈ TrendAnalysis.detect_anomalies dates,
      (a.count : ℚ) > TrendAnalysis.avg_daily dates * 2 ∧
      a.severity = (if (a.count : ℚ) > TrendAnalysis.avg_daily dates * 3
        then "HIGH" else "MEDIUM") ∧
      (a.date, a.count) ∈ TrendAnalysis.daily_counts dates) ∧
    (∀ dc ∈ TrendAnalysis.daily_counts dates,
      (dc.2 : ℚ) > TrendAnalysis.avg_daily dates * 2 →
      ∃ a ∈ TrendAnalysis.detect_anomalies dates, a.date = dc.1 ∧ a.count = dc.2) ∧
    ((∀ dc ∈ TrendAnalysis.daily_counts dates,
        ¬((dc.2 : ℚ) > TrendAnalysis.avg_daily dates * 2)) →
      TrendAnalysis.detect_anomalies dates = []) := by
  haveI hTot : IsTotal TrendAnalysis.Anomaly
      (fun a b => a.count ≥ b.count) := ⟨fun a b => le_total b.count a.count⟩
  haveI hTrans : IsTrans TrendAnalysis.Anomaly
      (fun a b => a.count ≥ b.count) := ⟨fun _ _ _ h1 h2 => le_trans h2 h1⟩
  unfold TrendAnalysis.detect_anomalies
  by_cases hE : (TrendAnalysis.daily_counts dates).isEmpty
  · rw [if_pos hE]
    have hnil : TrendAnalysis.daily_counts dates = [] := List.isEmpty_iff.mp hE
    refine ⟨List.Pairwise.nil, by simp, ?_, fun _ => rfl⟩
    intro dc hdc
    rw [hnil] at hdc
    exact absurd hdc (List.not_mem_nil dc)
  · rw [if_neg hE]
    dsimp only
    refine ⟨?_, ?_, ?_, ?_⟩
    · exact List.sorted_insertionSort
        (fun a b : TrendAnalysis.Anomaly => a.count ≥ b.count) _
    · intro a ha
      rw [List.mem_insertionSort] at ha
      obtain ⟨dc, hdc, hfa⟩ := List.mem_map.mp ha
      obtain ⟨hdcm, hdcp⟩ := List.mem_filter.mp hdc
      subst hfa
      refine ⟨by exact_mod_cast of_decide_eq_true hdcp, rfl, ?_⟩
      simpa using hdcm
    · intro dc hdc hgt
      refine ⟨⟨dc.1, dc.2, TrendAnalysis.avg_daily dates,
        if (dc.2 : ℚ) > TrendAnalysis.avg_daily dates * 3 then "HIGH" else "MEDIUM"⟩,
        ?_, rfl, rfl⟩
      rw [List.mem_insertionSort]
      refine List.mem_map.mpr ⟨dc, List.mem_filter.mpr ⟨hdc, decide_eq_true hgt⟩, rfl⟩
    · intro hnone
      have hfil : (TrendAnalysis.daily_counts dates).filter
          (fun dc => (dc.2 : ℚ) > TrendAnalysis.avg_daily dates * 2) = [] := by
        rw [List.filter_eq_nil_iff]
        intro dc hdc
        simpa using hnone dc hdc
      rw [hfil]
      rfl

/-- C8 witness: a flat batch, one issue on each of three distinct days, has
no day exceeding twice the mean and yields no anomalies. -/
theorem C8_witness : TrendAnalysis.detect_anomalies ["a", "b", "c"] = [] :=
  (C8_detect_anomalies ["a", "b", "c"]).2.2.2 (by decide)
